import Mathlib

/-!
Shallow embedding of the py-jsonapi schema/field engine and inclusion
resolver (src/jsonapi/schema/base_fields.py, fields.py, schema.py and
src/jsonapi/api.py), together with proofs about the embedded code.

Conventions:
* Python machine behaviour is made explicit: attribute lookups of names that
  are never assigned evaluate to an `attributeError`, unbound local / global
  names to a `nameError`, positional-argument mismatches to a `typeError`,
  dictionary indexing misses to a `keyError`.
* JSON pointers are lists of reference tokens; `sp / "x"` is `sp ++ ["x"]`.
-/

/-- JSON values as decoded by Python's json module. Python floats that are
not integers are modelled as rationals via the `num` constructor; `bool` is
kept separate from `int` because Python distinguishes the objects, while the
fact that `isinstance(True, int)` holds in Python is modelled explicitly in
the predicates below. -/
inductive Json where
  | null
  | bool (b : Bool)
  | int (i : Int)
  | num (q : Rat)
  | str (s : String)
  | arr (xs : List Json)
  | obj (kvs : List (String × Json))

/-- A JSON pointer, as a list of reference tokens. -/
abbrev SP := List String

/-- Modelled from the spec: the module `jsonapi.errors` is not under `src/`
(only its import sites are), so the error classes follow the taxonomy of
spec section 7 (`InvalidType`, `InvalidValue`, `InvalidOperation`,
`Conflict`, `NotFound`, `NotImplemented`, `ConfigurationError`).  The class
raised in `Schema._validate_field_pre_decode` for a read-only field is named
`ValidationError` at the raise site; the spec describes that failure as
`InvalidOperation`, so it is modelled by the `invalidOperation` constructor.
Python built-in exceptions raised by the source (AttributeError, NameError,
KeyError, TypeError, AssertionError, IndexError, NotImplementedError) get
their own constructors. -/
inductive PyErr where
  | invalidType (detail : String) (sourcePointer : Option SP)
  | invalidValue (detail : String) (sourcePointer : Option SP)
  | invalidOperation (detail : String) (sourcePointer : Option SP)
  | conflict (detail : String) (sourcePointer : Option SP)
  | attributeError (attr : String)
  | nameError (name : String)
  | keyError (key : String)
  | typeError (msg : String)
  | assertionError
  | indexError
  | notImplementedError
deriving Repr, DecidableEq

/-- Association-list lookup for JSON objects (Python `d.get(k)`). -/
def jsonLookup : List (String × Json) → String → Option Json
  | [], _ => none
  | (k, v) :: rest, key => if k == key then some v else jsonLookup rest key

/-- Python `k in d` for a JSON object. -/
def jsonHasKey (kvs : List (String × Json)) (key : String) : Bool :=
  (jsonLookup kvs key).isSome

/-- Python `d.get(k, default)`. -/
def jsonGetD (kvs : List (String × Json)) (key : String) (dflt : Json) : Json :=
  (jsonLookup kvs key).getD dflt

/-- Python `d[k]` on a JSON object: KeyError when the key is absent. -/
def jsonGetKey (kvs : List (String × Json)) (key : String) : Except PyErr Json :=
  match jsonLookup kvs key with
  | some v => .ok v
  | none => .error (.keyError key)

/-- Python `isinstance(data, collections.Mapping)` for decoded JSON data:
only dictionaries qualify. -/
def pyIsMapping : Json → Bool
  | .obj _ => true
  | _ => false

/-- Python `x[i]` with an integer index: lists index positionally, while a
string-keyed dictionary raises `KeyError: i`; other JSON values are not
subscriptable by an integer. -/
def pyGetIndex : Json → Nat → Except PyErr Json
  | .arr xs, i =>
      match xs.get? i with
      | some v => .ok v
      | none => .error .indexError
  | .obj _, i => .error (.keyError (toString i))
  | _, _ => .error (.typeError "object is not subscriptable")

/-- Python `int(x)` on JSON scalars (truncation toward zero for floats). -/
def pyInt : Json → Except PyErr Int
  | .int i => .ok i
  | .bool b => .ok (if b then 1 else 0)
  | .num q => .ok (q.num / (q.den : Int))
  | .str s =>
      match s.toInt? with
      | some i => .ok i
      | none => .error (.typeError "invalid literal for int()")
  | _ => .error (.typeError "int() argument must be a number or string")

/-- Python `str()`/`format()` rendering of scalar JSON values, used only to
build error detail strings. -/
def pyFormat : Json → String
  | .null => "None"
  | .bool true => "True"
  | .bool false => "False"
  | .int i => toString i
  | .num q => toString q
  | .str s => s
  | .arr _ => "[...]"
  | .obj _ => "\x7b...\x7d"

/-- Python `data == expected` where `expected` is a `str`: values of any
other type compare unequal. -/
def pyEqStr (j : Json) (s : String) : Bool :=
  match j with
  | .str t => t == s
  | _ => false

/-- Python `is` identity test between a decoded JSON value (or `None` for an
absent member, modelled as `Option.none`) and one of the interned booleans
`True`/`False`.  Only the boolean singletons can be identical to a boolean;
in particular `None is False` is `False`. -/
def pyIsBool (data : Option Json) (b : Bool) : Bool :=
  match data with
  | some (.bool c) => c == b
  | _ => false

/-! ## Fields (src/jsonapi/schema/base_fields.py, fields.py) -/

/-- The value of `BaseField.writable` after `BaseField.__init__` ran: the
string `"always"` is replaced by the *tuple* `("never", "creation")`
(base_fields.py lines 140-144); any other accepted value stays a string. -/
inductive Writable where
  | str (s : String)
  | tup
deriving Repr, DecidableEq

/-- The concrete field kind, carrying the per-kind constructor state.  The
string field stores its compiled regex as a full-match predicate (`None`
prevents the field from being constructed at all, see `StringAttr.init`). -/
inductive FieldType where
  | plain
  | stringA (fullmatch : Option (String → Bool))
  | integer (min max : Option Int)
  | fraction (min max : Option Rat)
  | uuidA (version : Option Nat)
  | toOne (foreignTypes : List String) (dereference : Bool) (requireData : String)

/-- A field as it sits on a finished schema: `name`, `mapped_key`,
`writable`, `required` as left by `BaseField.__init__` plus the subclass
state.  No custom getters/setters/validators are attached (`fvalidators` is
empty) in any setting the claims exercise. -/
structure JField where
  name : String
  mapped_key : String
  writable : Writable
  required : String
  ftype : FieldType

/-- `BaseField.__init__` (base_fields.py lines 117-152): asserts the policy
strings, then normalizes `writable == "always"` to the tuple
`("never", "creation")`. -/
def BaseField.init (name mapped_key writable required : String)
    (ftype : FieldType) : Except PyErr JField :=
  if !(writable == "always" || writable == "never" || writable == "creation"
        || writable == "update") then
    .error .assertionError
  else if !(required == "always" || required == "never" || required == "creation"
        || required == "update") then
    .error .assertionError
  else
    .ok { name := name, mapped_key := mapped_key,
          writable := if writable == "always" then .tup else .str writable,
          required := required, ftype := ftype }

/-- Python `field.writable in ("always", context)`: membership in a 2-tuple
is equality with one of its elements.  The tuple `("never", "creation")`
that `"always"` was normalized to is never equal to a string (or to `None`),
and the possible string values after `__init__` are `"never"`, `"creation"`
and `"update"`. -/
def Writable.inAlwaysCtx (w : Writable) (context : Option String) : Bool :=
  match w with
  | .tup => false
  | .str s => s == "always" || (match context with
      | some c => s == c
      | none => false)

/-- Python `field.required in ("always", context)`. -/
def requiredIn (required : String) (context : Option String) : Bool :=
  required == "always" || (match context with
     | some c => required == c
     | none => false)

/-- `String.validate_pre_decode` (fields.py lines 89-96; the class is named
`String` in the source, renamed here because Lean reserves that name).  Note
the condition on line 93: the field raises `InvalidValue` when the regex
*does* match. -/
def StringAttr.validate_pre_decode (fullmatch : Option (String → Bool))
    (data : Json) (sp : SP) : Except PyErr Unit :=
  match data with
  | .str s =>
      match fullmatch with
      | some f => if f s then .error (.invalidValue "Did not match regex." (some sp))
                  else .ok ()
      | none => .ok ()
  | _ => .error (.invalidType "Must be a string." (some sp))

/-- `String.__init__` (fields.py lines 84-87): `re.compile(regex)` with the
default `regex=None` raises `TypeError` inside `re.compile`, so a plain
`String()` field cannot be constructed. -/
def StringAttr.init (regex : Option (String → Bool)) (name mapped_key writable required : String) :
    Except PyErr JField := do
  let f ← BaseField.init name mapped_key writable required (.stringA regex)
  match regex with
  | none => .error (.typeError "first argument must be string or compiled pattern")
  | some _ => .ok f

/-- Numeric value of a JSON scalar for Python comparison operators
(`bool` compares as 0/1, since it is an `int` subclass). -/
def jsonRatVal : Json → Rat
  | .int i => (i : Rat)
  | .bool b => if b then 1 else 0
  | .num q => q
  | _ => 0

/-- Python `isinstance(data, int) or (isinstance(data, float) and
data.is_integer())`: `bool` is an `int` subclass. -/
def pyIsIntLike : Json → Bool
  | .int _ => true
  | .bool _ => true
  | .num q => q.den == 1
  | _ => false

/-- `Integer.validate_pre_decode` (fields.py lines 120-133): type check and
inclusive min/max bound checks, each `InvalidValue` naming its bound; then
`super().validate_pre_decode` runs the (empty) validator list. -/
def Integer.validate_pre_decode (min max : Option Int) (data : Json) (sp : SP) :
    Except PyErr Unit :=
  if !(pyIsIntLike data) then
    .error (.invalidType "Must be an integer." (some sp))
  else if (match min with
      | some m => decide ((m : Rat) > jsonRatVal data)
      | none => false) = true then
    .error (.invalidValue ("Must be >= " ++ toString (min.getD 0) ++ ".") (some sp))
  else if (match max with
      | some m => decide ((m : Rat) < jsonRatVal data)
      | none => false) then
    .error (.invalidValue ("Must be <= " ++ toString (max.getD 0) ++ ".") (some sp))
  else
    .ok ()

/-- `Integer.decode` (fields.py lines 135-136): `int(data)`. -/
def Integer.decode (data : Json) : Except PyErr Int := pyInt data

/-- `Integer.encode` (fields.py lines 138-139): `int(data)` of an already
decoded integer. -/
def Integer.encode (i : Int) : Json := .int i

/-- `Fraction.validate_pre_decode` (fields.py lines 262-291): the wire value
must be a dict with integer `numerator` and `denominator` members, non-zero
denominator, and the quotient inside the optional bounds. -/
def Fraction.validate_pre_decode (min max : Option Rat) (data : Json) (sp : SP) :
    Except PyErr Unit := do
  match data with
  | .obj kvs =>
      if !(jsonHasKey kvs "numerator") then
        throw (.invalidValue "Does not have a 'numerator' member." (some sp))
      else if !(jsonHasKey kvs "denominator") then
        throw (.invalidValue "Does not have a 'denominator' member." (some sp))
      else do
        let numv ← jsonGetKey kvs "numerator"
        let denv ← jsonGetKey kvs "denominator"
        match numv, denv with
        | .int n, .int d =>
            if d == 0 then
              throw (.invalidValue "The denominator must be not equal to zero."
                (some (sp ++ ["denominator"])))
            else do
              let val : Rat := (n : Rat) / (d : Rat)
              if (match min with | some m => decide (m > val) | none => false) then
                throw (.invalidValue ("Must be >= " ++ toString (min.getD 0) ++ ".") (some sp))
              else if (match max with | some m => decide (m < val) | none => false) then
                throw (.invalidValue ("Must be <= " ++ toString (max.getD 0) ++ ".") (some sp))
              else
                return ()
        | .int _, _ =>
            throw (.invalidValue "The denominator must be an integer."
              (some (sp ++ ["denominator"])))
        | _, _ =>
            throw (.invalidValue "The numerator must be an integer."
              (some (sp ++ ["numerator"])))
  | _ =>
      throw (.invalidType
        "Must be an object with a 'numerator' and 'denominator' member." (some sp))

/-- `Fraction.decode` (fields.py lines 293-294):
`fractions.Fraction(int(data[0]), int(data[1]))`.  `data` is the validated
wire value, a dictionary with the string keys `numerator` and `denominator`;
indexing it with the integer `0` raises `KeyError: 0`. -/
def Fraction.decode (data : Json) : Except PyErr Rat := do
  let a ← pyGetIndex data 0
  let b ← pyGetIndex data 1
  let n ← pyInt a
  let d ← pyInt b
  if d == 0 then throw (.typeError "Fraction(n, 0)")
  else return (n : Rat) / (d : Rat)

/-- `Fraction.encode` (fields.py lines 296-297): emits the `numerator` /
`denominator` members of the (normalized) fraction. -/
def Fraction.encode (q : Rat) : Json :=
  .obj [("numerator", .int q.num), ("denominator", .int (q.den : Int))]

/-- Hex digit value, `none` for a non-hex character. -/
def hexVal (c : Char) : Option Nat :=
  if ('0' ≤ c && c ≤ '9') then some (c.toNat - '0'.toNat)
  else if ('a' ≤ c && c ≤ 'f') then some (c.toNat - 'a'.toNat + 10)
  else if ('A' ≤ c && c ≤ 'F') then some (c.toNat - 'A'.toNat + 10)
  else none

/-- Python `uuid.UUID(hex=s)`: hyphens are stripped, the remaining 32
characters are parsed case-insensitively as hexadecimal (urn prefixes and
braces are not needed for the wire values considered here). -/
def UUID.parse (s : String) : Except PyErr Nat :=
  let cs := (s.toList.filter (fun c => c ≠ '-'))
  if cs.length ≠ 32 then .error (.typeError "badly formed hexadecimal UUID string")
  else
    match cs.foldl (fun acc c =>
        match acc, hexVal c with
        | some n, some v => some (n * 16 + v)
        | _, _ => none) (some 0) with
    | some n => .ok n
    | none => .error (.typeError "badly formed hexadecimal UUID string")

/-- `UUID.validate_pre_decode` (fields.py lines 374-389, without the
version check for `version=None`): a non-string is `InvalidType`, an
unparsable string is `InvalidValue`. -/
def UUID.validate_pre_decode (data : Json) (sp : SP) : Except PyErr Unit :=
  match data with
  | .str s =>
      match UUID.parse s with
      | .ok _ => .ok ()
      | .error _ => .error (.invalidValue
          "The UUID is badly formed (the representation as hexadecimal string is needed)."
          (some sp))
  | _ => .error (.invalidType "The UUID must be a hexadecimal string." (some sp))

/-- `UUID.decode` (fields.py lines 391-392): `uuid.UUID(hex=data)`. -/
def UUID.decode (data : String) : Except PyErr Nat := UUID.parse data

/-- 32-character lowercase hexadecimal rendering of a UUID value, as
returned by Python's `uuid.UUID.hex` (no hyphens). -/
def UUID.encode (n : Nat) : String :=
  String.mk (((List.range 32).map
    (fun i => Nat.digitChar (n / 16 ^ (31 - i) % 16))))

/-! ## `Schema._validate_field_pre_decode` (schema.py lines 442-470) -/

/-- Dispatch of `field.validate_pre_decode` onto the concrete field classes.
`plain` is a bare `Attribute`/`BaseField`: it only runs the registered
validators, of which there are none here.  Relationship fields run
`Relationship.validate_pre_decode`, i.e. `validate_relationship_object`
first (base_fields.py lines 593-624 and 640-647). -/
def JField.validate_pre_decode (f : JField) (data : Json) (sp : SP)
    (_context : Option String) : Except PyErr Unit :=
  match f.ftype with
  | .plain => .ok ()
  | .stringA re => StringAttr.validate_pre_decode re data sp
  | .integer mn mx => Integer.validate_pre_decode mn mx data sp
  | .fraction mn mx => Fraction.validate_pre_decode mn mx data sp
  | .uuidA _ => UUID.validate_pre_decode data sp
  | .toOne foreign deref requireData =>
      match data with
      | .obj kvs =>
          if kvs.isEmpty then
            .error (.invalidValue
              "Must contain at least a 'data', 'links' or 'meta' member." (some sp))
          else if !(kvs.all (fun kv =>
              kv.fst == "links" || kv.fst == "data" || kv.fst == "meta")) then
            .error (.invalidValue "Unexpected member." (some sp))
          else if (deref || requireData != "") && !(jsonHasKey kvs "data") then
            .error (.invalidValue "The 'data' member is required." (some sp))
          else
            match jsonLookup kvs "data" with
            | some (.obj idkvs) =>
                if !(jsonHasKey idkvs "type" && jsonHasKey idkvs "id") then
                  .error (.invalidValue "Must contain a 'type' and an 'id' member."
                    (some (sp ++ ["data"])))
                else if !foreign.isEmpty
                    && !(match jsonLookup idkvs "type" with
                         | some t => foreign.any (fun ft => pyEqStr t ft)
                         | none => false) then
                  .error (.invalidValue "Unexpected type."
                    (some (sp ++ ["data", "type"])))
                else .ok ()
            | some .null => .ok ()
            | some _ => .error (.invalidType "Must be an object."
                (some (sp ++ ["data"])))
            | none => .ok ()
      | _ => .error (.invalidType "Must be an object." (some sp))

/-- `Schema._validate_field_pre_decode` (schema.py lines 442-470).  The
`context` argument models `context or self.context.get("crud")` already
resolved: callers that pass an explicit context give `some c`; callers that
omit it give whatever the ambient request context holds (`none` for the
crud key of a freshly initialized context).

* writable check (lines 458-461): `field.writable in ("always", context)`;
  a field supplied in the document (`sp is not None`) that is not writable
  raises the read-only error, whose class `ValidationError` is modelled as
  the spec's `InvalidOperation` (see `PyErr`).
* required check (lines 463-466): `data is (sp is not None)` compares the
  input value by identity with a boolean, so it can only fire on the
  interned booleans (see `pyIsBool`).
* finally, a supplied field runs its own pre-decode validators. -/
def Schema.validate_field_pre_decode (field : JField) (data : Option Json)
    (sp : Option SP) (context : Option String) : Except PyErr Unit := do
  let writable := field.writable.inAlwaysCtx context
  if !writable && sp.isSome then
    throw (.invalidOperation "The field '\x7b\x7d' is readonly." sp)
  let required := requiredIn field.required context
  if required && pyIsBool data sp.isSome then
    throw (.invalidValue "The field '\x7b\x7d' is required." sp)
  match sp with
  | some p => field.validate_pre_decode (data.getD .null) p context
  | none => return ()

/-- `BaseField.set` (base_fields.py lines 220-235): `assert self.writable !=
"never"` guards the default setter, which assigns `mapped_key` on the
resource (modelled as an association list). -/
def BaseField.set (field : JField) (resource : List (String × Json)) (data : Json) :
    Except PyErr (List (String × Json)) :=
  if field.writable == .str "never" then .error .assertionError
  else if field.mapped_key == "" then .ok resource
  else .ok ((field.mapped_key, data) ::
    resource.filter (fun kv => kv.fst ≠ field.mapped_key))

/-! ## Link and Relationship construction (base_fields.py lines 292-327,
368-378, 491-522) -/

/-- Binding of a call to the bound method `BaseField.__init__` whose
parameter list after `self` is keyword-only (`def __init__(self, *, ...)`,
base_fields.py line 117): any positional argument fails argument binding
with a `TypeError` before the body runs. -/
def BaseField.initCall (numPositional : Nat)
    (name mapped_key writable required : String) (ftype : FieldType) :
    Except PyErr JField :=
  if numPositional > 0 then
    .error (.typeError
      "__init__() takes 1 positional argument but 2 were given")
  else BaseField.init name mapped_key writable required ftype

/-- `Link.__init__` (base_fields.py lines 368-378): the call on line 373 is
`super().__init__(self, name=name, writable="never", fget=fget)`, which
passes `self` as an extra positional argument to the keyword-only
`BaseField.__init__`. -/
def Link.init (_href _link_of name : String) (_normalize : Bool) :
    Except PyErr JField := do
  let f ← BaseField.initCall 1 name "" "never" "never" .plain
  return f

/-- `LinksObjectMixin.__init__` (base_fields.py lines 318-320):
`{link.name: link for link in links}` iterates `links`, so the default
`links=None` raises `TypeError` ('NoneType' object is not iterable).  Links
are modelled by their names, which is all the mixin reads. -/
def LinksObjectMixin.init (links : Option (List String)) :
    Except PyErr (List String) :=
  match links with
  | none => .error (.typeError "NoneType object is not iterable")
  | some ls => .ok ls

/-- `Relationship.__init__` (base_fields.py lines 491-522) in source order:
`BaseField.__init__(self, **kargs)` (keyword-correct), then
`LinksObjectMixin.__init__(self, links=links)`, the `require_data`
assertion, and finally `self.add_link(Link("self", fget=...))`, which
constructs a `Link` and therefore hits the `TypeError` of `Link.init`. -/
def Relationship.init (name mapped_key writable required : String)
    (_dereference : Bool) (require_data : String)
    (_foreign_types : List String) (links : Option (List String)) :
    Except PyErr JField := do
  let f ← BaseField.init name mapped_key writable required .plain
  let _ ← LinksObjectMixin.init links
  if !(require_data == "never" || require_data == "always"
      || require_data == "oncreation" || require_data == "onupdate") then
    throw .assertionError
  let _ ← Link.init "" "<resource>" "self" true
  let _ ← Link.init "" "<resource>" "related" true
  return f

/-! ## Schema document pipeline (schema.py) -/

/-- The class-level field partitions a schema carries, as `SchemaMeta.__new__`
computes them once at class-definition time (schema.py lines 64-218):
top-level attributes, relationships and meta attributes, each field already
holding its defaults (`name`/`mapped_key` from the key) and source pointer.
Note that `SchemaMeta` never defines a `_japi_id` attribute anywhere, so
instance code reading `self._japi_id` raises `AttributeError`. -/
structure SchemaDef where
  typeName : String
  attributes : List JField
  relationships : List JField
  meta : List JField

/-- The `title` attribute of the `articles` scenario schema: a `String`
attribute, required on creation, default write policy `"always"` (which
`BaseField.__init__` normalizes to the tuple).  The record is posited
directly: in the source a plain `String()` field cannot actually be
constructed, because its initializer runs `re.compile(None)`. -/
def titleField : JField :=
  { name := "title", mapped_key := "title", writable := .tup,
    required := "creation", ftype := .stringA none }

/-- The `author` to-one relationship of the `articles` scenario schema,
likewise posited directly (`ToOneRelationship()` cannot actually be
constructed, see `Relationship.init`). -/
def authorField : JField :=
  { name := "author", mapped_key := "author", writable := .tup,
    required := "never", ftype := .toOne [] true "always" }

/-- The `articles` schema of the spec scenario: identifier field `id`,
attribute `title`, to-one relationship `author`. -/
def articles : SchemaDef :=
  { typeName := "articles",
    attributes := [titleField],
    relationships := [authorField],
    meta := [] }

/-- One pass of the per-field loops of `validate_resource_pre_decode`
(schema.py lines 513-516, 526-529, 539-542): for each field of the
partition, the source pointer is present exactly when the member is in the
section, and `_validate_field_pre_decode` is called *without* the `context`
argument, so the field check resolves the context from the ambient request
context (whose `crud` key a freshly initialized context holds as `None`,
modelled as `none`). -/
def Schema.validate_fields_section (fields : List JField)
    (section_ : List (String × Json)) (section_sp : SP) :
    Except PyErr Unit :=
  fields.forM (fun field =>
    let field_sp := if jsonHasKey section_ field.name
      then some (section_sp ++ [field.name]) else none
    Schema.validate_field_pre_decode field (jsonLookup section_ field.name)
      field_sp none)

/-- `Schema.validate_resource_pre_decode` (schema.py lines 472-543):

1. `isinstance(data, collections.Mapping)` (lines 491-493);
2. the missing-id check (lines 496-498): fires when an id is expected or the
   context is `"update"` and the document has no `id` member;
3. the id-match check (lines 499-502): with an expected id, a differing
   document id raises `Conflict` at `sp/"id"`;
4. line 503 reads `self._japi_id`, an attribute that no code in the
   repository ever assigns, so it raises `AttributeError`; the
   attribute/relationship/meta loops of lines 505-543 are unreachable and
   are kept after the throw to mirror the source. -/
def Schema.validate_resource_pre_decode (s : SchemaDef) (data : Json) (sp : SP)
    (context : Option String) (expected_id : String) : Except PyErr Unit := do
  match data with
  | .obj kvs =>
      if (expected_id != "" || context == some "update")
          && !(jsonHasKey kvs "id") then
        throw (.invalidValue "The 'id' member is missing." (some (sp ++ ["id"])))
      if expected_id != "" then
        let idv ← jsonGetKey kvs "id"
        if !(pyEqStr idv expected_id) then
          throw (.conflict ("The id '" ++ pyFormat idv
            ++ "' does not match the endpoint ('" ++ expected_id ++ "').")
            (some (sp ++ ["id"])))
      throw (.attributeError "_japi_id")
      let attrs := jsonGetD kvs "attributes" (.obj [])
      match attrs with
      | .obj akvs =>
          Schema.validate_fields_section s.attributes akvs (sp ++ ["attributes"])
          let rels := jsonGetD kvs "relationships" (.obj [])
          match rels with
          | .obj rkvs =>
              Schema.validate_fields_section s.relationships rkvs
                (sp ++ ["relationships"])
              let meta := jsonGetD kvs "meta" (.obj [])
              match meta with
              | .obj mkvs =>
                  Schema.validate_fields_section s.meta mkvs (sp ++ ["meta"])
              | _ => throw (.invalidType "Must be an object." (some (sp ++ ["meta"])))
          | _ => throw (.invalidType "Must be an object."
              (some (sp ++ ["relationships"])))
      | _ => throw (.invalidType "Must be an object." (some (sp ++ ["attributes"])))
  | _ => throw (.invalidType "Must be an object." (some sp))

/-- `Schema.decode_resource` (schema.py lines 574-610): its first statement
is `memo = OrderedDict()`, but only `collections` is imported in schema.py,
so the bare name `OrderedDict` is unbound and every call raises
`NameError` before any field is decoded. -/
def Schema.decode_resource (_s : SchemaDef) (_data : Json) (_sp : SP) :
    Except PyErr (List (String × (Json × Option SP))) :=
  .error (.nameError "OrderedDict")

/-- `Schema.validate_resource_post_decode` (schema.py lines 615-630): the
loop body reads `self._field_by_key`, a misspelling of `_fields_by_key`
that is never assigned, so the first iteration raises `AttributeError`; an
empty memo completes. -/
def Schema.validate_resource_post_decode
    (memo : List (String × (Json × Option SP))) (_context : Option String) :
    Except PyErr Unit :=
  match memo with
  | [] => .ok ()
  | _ :: _ => .error (.attributeError "_field_by_key")

/-- `Schema.create_resource` (schema.py lines 635-669): pre-decode
validation with `context="create"`, decoding, post-decode validation, then
the constructor call on the resource class with the decoded values keyed by
`mapped_key` (the resource object is modelled as that mapping). -/
def Schema.create_resource (s : SchemaDef) (data : Json) (sp : SP) :
    Except PyErr (List (String × Json)) := do
  Schema.validate_resource_pre_decode s data sp (some "create") ""
  let memo ← Schema.decode_resource s data sp
  Schema.validate_resource_post_decode memo (some "create")
  let init := memo.map (fun kv => (kv.fst, kv.snd.fst))
  let init := match data with
    | .obj kvs => (match jsonLookup kvs "id" with
        | some idv => init ++ [("id", idv)]
        | none => init)
    | _ => init
  return init

/-- `Schema.update_resource` (schema.py lines 671-708) for a resource given
by id (the branch for a resource *instance* first calls `self.id`, which
reads the undefined `_japi_id` attribute): pre-decode validation with
`context="update"` and `expected_id=resource_id`, decoding, post-decode
validation, then `query_resource` (`NotImplementedError` in the base
schema) and the per-field `set` calls. -/
def Schema.update_resource (s : SchemaDef) (resource_id : String) (data : Json)
    (sp : SP) : Except PyErr Unit := do
  Schema.validate_resource_pre_decode s data sp (some "update") resource_id
  let memo ← Schema.decode_resource s data sp
  Schema.validate_resource_post_decode memo (some "update")
  throw .notImplementedError

/-! ## Inclusion resolver (api.py lines 276-330) -/

/-- The resource graph an inclusion resolution runs over: resource objects
are handles (`Nat`), `ident` is `API.ensure_identifier` (the
`(typename, id)` tuple), and `rel` is `schema.fetch_include` (the related
resources of a resource under a relationship name). -/
structure IncWorld where
  ident : Nat → String × String
  rel : Nat → String → List Nat

/-- A key of the `included_relationships` defaultdict.  The source mixes two
key kinds in the same dictionary: `_include` *reads*
`included_relationships[parent]` with the parent resource **object** as key,
but *writes* tags under `included_relationships[relative_id]`, an identifier
tuple; an object key never equals a tuple key. -/
inductive IncKey where
  | robj (r : Nat)
  | rid (t : String) (i : String)
deriving Repr, DecidableEq

/-- The state of one inclusion resolution: `included_resources`
(identifier to resource object) and `included_relationships` (defaultdict
of tag sets). -/
structure IncState where
  resources : List ((String × String) × Nat)
  tags : List (IncKey × List String)

def emptyIncState : IncState := { resources := [], tags := [] }

def ddLookup : List (IncKey × List String) → IncKey → Option (List String)
  | [], _ => none
  | (k, v) :: rest, key => if k == key then some v else ddLookup rest key

/-- Reading `d[k]` on a `defaultdict(set)`: a missing key is inserted with
an empty set first. -/
def ddTouch (tags : List (IncKey × List String)) (k : IncKey) :
    List (IncKey × List String) :=
  match ddLookup tags k with
  | some _ => tags
  | none => tags ++ [(k, [])]

def ddGet (tags : List (IncKey × List String)) (k : IncKey) : List String :=
  (ddLookup tags k).getD []

/-- `API.ensure_identifier` (api.py lines 252-274) exactly as written: the
first statement evaluates `isinstance(obj, collections.Sequence)` (line
267), but api.py binds only `from collections import defaultdict, Sequence`
— the module name `collections` itself is never imported — so every call
raises `NameError` before inspecting its argument.  Consequently, even
under the evident `resource`-to-`parent` repair of `_include`, the loop
body crashes at `relative_id = self.ensure_identifier(relative)` (line 291)
before `included_resources[relative_id] = relative` can ever run: no
execution of the source writes an included-set entry. -/
def API.ensure_identifier (_obj : Json) : Except PyErr (String × String) :=
  .error (.nameError "collections")

/-- `API._include` (api.py lines 276-298) exactly as written: after the
path-exhausted return and the visited check (which touches the defaultdict
under the parent *object* key), line 287 executes
`schema = self.get_schema(resource)` — but no name `resource` is bound in
the function (the parameter is `parent`), so the call raises `NameError`
whenever it reaches the fetch. -/
def API.include_src (_w : IncWorld) (parent : Nat) (path : List String)
    (st : IncState) : Except PyErr IncState :=
  match path with
  | [] => .ok st
  | relname :: _rest =>
      let st1 : IncState := { st with tags := ddTouch st.tags (.robj parent) }
      if (ddGet st1.tags (.robj parent)).contains relname then .ok st1
      else .error (.nameError "resource")

/-- `API.include` (api.py lines 300-330) exactly as written: the loop
`for resource in resources:` iterates the unbound name `resources` (the
parameter is `primary`), so every call raises `NameError` at once. -/
def API.include_doc (_w : IncWorld) (_primary : List Nat)
    (_paths : List (List String)) : Except PyErr IncState :=
  .error (.nameError "resources")

/-- The one-resource world of the cycle-safety scenario: a single resource
`0` of type `articles` with id `1` whose relationship `self-ref` points back
to itself. -/
def selfRefWorld : IncWorld :=
  { ident := fun _ => ("articles", "1"),
    rel := fun r name => if r == 0 && name == "self-ref" then [0] else [] }

/-- The rational 2/3 in normal form, used as the in-domain `Fraction` value
of the round-trip claim (written via the raw constructor so that the kernel
can evaluate `Fraction.encode` on it). -/
def twoThirds : Rat := ⟨2, 3, by decide, by decide⟩

/-- A `title` attribute with `writable="never"` (the write policy stays the
string `"never"` after `BaseField.__init__`). -/
def neverTitleField : JField :=
  { name := "title", mapped_key := "title", writable := .str "never",
    required := "never", ftype := .plain }

/-- The field produced by `BaseField.__init__` for the *default* write
policy `writable="always"`: the policy has been normalized to the tuple
`("never", "creation")`. -/
def alwaysTitleField : JField :=
  { name := "title", mapped_key := "title", writable := .tup,
    required := "never", ftype := .plain }

/-! ## Helper lemmas -/

/-- Reduction of the `Except` monad operations, for the pipeline proofs. -/
@[simp] theorem except_bind_error {e : PyErr} {a b : Type}
    (k : a → Except PyErr b) :
    (Except.error e : Except PyErr a) >>= k = Except.error e := rfl

@[simp] theorem except_bind_ok {a b : Type} (x : a) (k : a → Except PyErr b) :
    (Except.ok x : Except PyErr a) >>= k = k x := rfl

@[simp] theorem except_throw {a : Type} (e : PyErr) :
    (throw e : Except PyErr a) = Except.error e := rfl

@[simp] theorem except_pure {a : Type} (x : a) :
    (pure x : Except PyErr a) = Except.ok x := rfl

/-! ## The claims -/

/-- C1: on the articles schema, the creation scenario document
`{"data": {"type": "articles", "attributes": {"title": "Hello"}}}` (no id
member) does **not** succeed: `create_resource` runs
`validate_resource_pre_decode`, which reaches line 503 of schema.py and
reads `self._japi_id` — an attribute no code in the repository ever
assigns — so the call raises `AttributeError` instead of returning a new
resource whose `title` equals `"Hello"`. -/
theorem c1_create_articles_crashes :
    Schema.create_resource articles
      (.obj [("type", .str "articles"),
             ("attributes", .obj [("title", .str "Hello")])]) ["data"]
      = .error (.attributeError "_japi_id") := rfl

/-- C2: `create({"data": {"attributes": {}}})` on the articles schema does
not fail with `InvalidValue` for the missing required `title`: the call
crashes with `AttributeError` on `_japi_id` before any field is examined;
moreover the field-level required check can never fire for an absent
member, because `data is (sp is not None)` compares `None` with `False` by
identity, so `validate_field_pre_decode` accepts the absent `title` under
every context. -/
theorem c2_create_empty_attributes_not_invalid_value :
    Schema.create_resource articles (.obj [("attributes", .obj [])]) ["data"]
      = .error (.attributeError "_japi_id")
    ∧ ∀ context : Option String,
        Schema.validate_field_pre_decode titleField none none context = .ok () := by
  refine ⟨rfl, fun c => ?_⟩
  simp [Schema.validate_field_pre_decode, titleField, pyIsBool, Writable.inAlwaysCtx]

/-- C3: on an update with a non-empty expected id, a document whose `id`
member differs from it makes `validate_resource_pre_decode` raise
`Conflict` at `sp/"id"` (schema.py lines 499-502), and `update_resource`
therefore returns that same error: decoding (which would fail with its own
`NameError`) is never reached and no field `set` runs. -/
theorem c3_update_id_mismatch_conflict (kvs : List (String × Json)) (idv : Json)
    (hid : jsonLookup kvs "id" = some idv) (hne : pyEqStr idv "5" = false) :
    (∃ d, Schema.validate_resource_pre_decode articles (.obj kvs) ["data"]
        (some "update") "5" = .error (.conflict d (some ["data", "id"])))
    ∧ (∃ d, Schema.update_resource articles "5" (.obj kvs) ["data"]
        = .error (.conflict d (some ["data", "id"]))) := by
  have h1 : Schema.validate_resource_pre_decode articles (.obj kvs) ["data"]
      (some "update") "5"
      = .error (.conflict ("The id '" ++ pyFormat idv
          ++ "' does not match the endpoint ('" ++ "5" ++ "').")
          (some (["data"] ++ ["id"]))) := by
    simp [Schema.validate_resource_pre_decode, jsonHasKey, hid, jsonGetKey, hne]
  have hd : (["data"] ++ ["id"] : List String) = ["data", "id"] := rfl
  rw [hd] at h1
  refine ⟨Exists.intro _ h1, Exists.intro ("The id '" ++ pyFormat idv
    ++ "' does not match the endpoint ('" ++ "5" ++ "').") ?_⟩
  simp only [Schema.update_resource]
  simp [h1]

/-- Witness for C3: the scenario `expectedId="5"`, document id `"6"`. -/
theorem c3_update_id_mismatch_conflict_witness :
    jsonLookup [("id", Json.str "6")] "id" = some (Json.str "6")
    ∧ pyEqStr (Json.str "6") "5" = false
    ∧ ((∃ d, Schema.validate_resource_pre_decode articles
          (.obj [("id", Json.str "6")]) ["data"] (some "update") "5"
          = .error (.conflict d (some ["data", "id"])))
      ∧ (∃ d, Schema.update_resource articles "5"
          (.obj [("id", Json.str "6")]) ["data"]
          = .error (.conflict d (some ["data", "id"])))) :=
  ⟨rfl, rfl, c3_update_id_mismatch_conflict [("id", Json.str "6")]
    (Json.str "6") rfl rfl⟩

/-- C4: every field whose write policy is the string `"never"`, when
supplied in a document under the `update` context, is rejected by
`_validate_field_pre_decode` with the read-only error (raised as
`ValidationError` in schema.py lines 458-461, the spec's
`InvalidOperation`), and the error carries the source pointer of the
supplied member. -/
theorem c4_write_never_readonly_error (f : JField) (hw : f.writable = .str "never")
    (data : Option Json) (sp : SP) :
    Schema.validate_field_pre_decode f data (some sp) (some "update")
      = .error (.invalidOperation "The field '\x7b\x7d' is readonly." (some sp)) := by
  simp [Schema.validate_field_pre_decode, hw, Writable.inAlwaysCtx]

/-- Witness for C4: a never-writable `title` supplied at
`/data/attributes/title`. -/
theorem c4_write_never_readonly_error_witness :
    neverTitleField.writable = .str "never"
    ∧ Schema.validate_field_pre_decode neverTitleField (some (.str "Hello"))
        (some ["data", "attributes", "title"]) (some "update")
      = .error (.invalidOperation "The field '\x7b\x7d' is readonly."
          (some ["data", "attributes", "title"])) :=
  ⟨rfl, c4_write_never_readonly_error neverTitleField rfl (some (.str "Hello"))
    ["data", "attributes", "title"]⟩

/-- C5: a field declared with the default write policy `"always"` does
**not** pass the writability check during creation: `BaseField.__init__`
normalizes `"always"` to the tuple `("never", "creation")`, and the check
`field.writable in ("always", context)` compares that tuple with two
strings, so it is false under the context `"create"` (which
`create_resource` passes) and under `"creation"` alike — the supplied value
is rejected as read-only. -/
theorem c5_always_writable_rejected_on_create :
    BaseField.init "title" "title" "always" "never" .plain = .ok alwaysTitleField
    ∧ Schema.validate_field_pre_decode alwaysTitleField (some (.str "Hello"))
        (some ["data", "attributes", "title"]) (some "create")
      = .error (.invalidOperation "The field '\x7b\x7d' is readonly."
          (some ["data", "attributes", "title"]))
    ∧ Schema.validate_field_pre_decode alwaysTitleField (some (.str "Hello"))
        (some ["data", "attributes", "title"]) (some "creation")
      = .error (.invalidOperation "The field '\x7b\x7d' is readonly."
          (some ["data", "attributes", "title"])) :=
  ⟨rfl, rfl, rfl⟩

/-- C6: resolving the single path `["self-ref"]` for the self-referential
resource does not terminate with the resource included once — it raises
`NameError` immediately: `API._include` reads the unbound name `resource`
(api.py line 287) as soon as it has to fetch, and `API.include` likewise
iterates the unbound name `resources` (line 326).  Nor is that the only
blocker: `API.ensure_identifier`, which the loop body would call next,
raises its own `NameError` on the unbound module name `collections`. -/
theorem c6_include_cycle_scenario_name_error :
    API.include_src selfRefWorld 0 ["self-ref"] emptyIncState
      = .error (.nameError "resource")
    ∧ API.include_doc selfRefWorld [0] [["self-ref"]]
      = .error (.nameError "resources") :=
  ⟨rfl, rfl⟩

/-- C8: the scalar round trip fails on the `Fraction` field.  The wire
value `{"numerator": 2, "denominator": 3}` is exactly `encode(2/3)` and
passes pre-decode validation, but `Fraction.decode` evaluates
`fractions.Fraction(int(data[0]), int(data[1]))` — indexing the validated
dictionary with the integer `0` — so `decode(encode(2/3))` raises
`KeyError: 0` instead of returning 2/3.  The UUID direction also normalizes
more than letter case: a wire value with hyphens (which passes validation)
is re-encoded without them. -/
theorem c8_fraction_roundtrip_crashes :
    twoThirds = (2 : Rat)/3
    ∧ Fraction.encode twoThirds
      = .obj [("numerator", .int 2), ("denominator", .int 3)]
    ∧ Fraction.validate_pre_decode none none (Fraction.encode twoThirds)
        ["data", "attributes", "f"] = .ok ()
    ∧ Fraction.decode (Fraction.encode twoThirds) = .error (.keyError "0")
    ∧ UUID.validate_pre_decode (.str "3fa85f64-5717-4562-b3fc-2c963f66afa6")
        ["p"] = .ok ()
    ∧ (UUID.decode "3fa85f64-5717-4562-b3fc-2c963f66afa6").map UUID.encode
      = .ok "3fa85f6457174562b3fc2c963f66afa6"
    ∧ "3fa85f6457174562b3fc2c963f66afa6"
      ≠ "3fa85f64-5717-4562-b3fc-2c963f66afa6" := by
  refine ⟨?_, rfl, rfl, rfl, rfl, rfl, by decide⟩
  unfold twoThirds
  rw [Rat.mk'_eq_divInt, Rat.divInt_eq_div]
  norm_num

/-- C9: for `Integer(min=0, max=10)`, pre-decode validation rejects `-1`
with `InvalidValue` naming the lower bound, accepts `10` (the bounds are
inclusive), and rejects `11` with `InvalidValue` naming the upper bound. -/
theorem c9_integer_inclusive_bounds :
    Integer.validate_pre_decode (some 0) (some 10) (.int (-1))
        ["data", "attributes", "rank"]
      = .error (.invalidValue "Must be >= 0." (some ["data", "attributes", "rank"]))
    ∧ Integer.validate_pre_decode (some 0) (some 10) (.int 10)
        ["data", "attributes", "rank"] = .ok ()
    ∧ Integer.validate_pre_decode (some 0) (some 10) (.int 11)
        ["data", "attributes", "rank"]
      = .error (.invalidValue "Must be <= 10." (some ["data", "attributes", "rank"])) :=
  ⟨rfl, rfl, rfl⟩

/-- C10: constructing a `Link` fails for every combination of constructor
arguments (the initializer passes `self` as an extra positional argument to
the keyword-only `BaseField.__init__`), and constructing a `Relationship`
fails for every combination as well: with `links=None` the mixin
initializer iterates `None`; otherwise the default `"self"`/`"related"`
`Link` objects it installs hit the `Link` TypeError (and invalid policy
strings fail the `BaseField` assertions).  Hence no schema containing such
fields can be built. -/
theorem c10_link_and_relationship_constructors_fail :
    (∀ (href link_of name : String) (normalize : Bool),
      Link.init href link_of name normalize
        = .error (.typeError
            "__init__() takes 1 positional argument but 2 were given"))
    ∧ (∀ (name mapped_key writable required : String) (dereference : Bool)
        (require_data : String) (foreign_types : List String)
        (links : Option (List String)),
        ∃ e, Relationship.init name mapped_key writable required dereference
          require_data foreign_types links = .error e) := by
  constructor
  · intro href link_of name normalize
    rfl
  · intro name mapped_key writable required dereference require_data
      foreign_types links
    unfold Relationship.init
    cases hb : BaseField.init name mapped_key writable required .plain with
    | error e => exact ⟨e, by simp [hb]⟩
    | ok f =>
        cases links with
        | none =>
            exact ⟨.typeError "NoneType object is not iterable",
              by simp [hb, LinksObjectMixin.init]⟩
        | some ls =>
            cases hrd : (require_data == "never" || require_data == "always"
                || require_data == "oncreation" || require_data == "onupdate") with
            | false =>
                exact ⟨.assertionError, by simp [hb, LinksObjectMixin.init, hrd]⟩
            | true =>
                refine ⟨.typeError
                  "__init__() takes 1 positional argument but 2 were given", ?_⟩
                simp [hb, LinksObjectMixin.init, hrd, Link.init, BaseField.initCall]
